import Mathlib

/- Verification of the STDM configuration (de)serializer
   (src/settings/config_serializer.py) against its specification.

   The Python source is shallowly embedded: DOM trees become an inductive
   tree type, the serializer classes become functions, and the external
   domain classes (Entity, Profile, EntityRelation, ...) become records
   whose behaviour is modelled from the specification wherever it is not
   visible inside src/settings. -/

/-- models Python unicode.upper on a single character; only the ASCII
range matters for serialized booleans. -/
def pyUpper (c : Char) : Char :=
  if 97 ≤ c.toNat ∧ c.toNat ≤ 122 then Char.ofNat (c.toNat - 32) else c

/-- translation of the module level helper _str_to_bool: text longer than
one character is cut down to its first character, then upper() of the
result is compared with the letter T. A one character string is used as
is, and the empty string stays empty and compares unequal, so the match
on the first character covers all three cases of the source. -/
def _str_to_bool (bool_str : String) : Bool :=
  match bool_str.data with
  | [] => false
  | c :: _ => pyUpper c == 'T'

/-- models the Python str() rendering of a boolean, used by every writer. -/
def pyStrBool (b : Bool) : String := if b then "True" else "False"

/-- value of a list of decimal digit characters. -/
def digitsToNat (cs : List Char) : Nat :=
  cs.foldl (fun a c => a * 10 + (c.toNat - 48)) 0

/-- leading and trailing whitespace removed, as Python int() and float()
do before parsing. -/
def stripWS (cs : List Char) : List Char :=
  ((cs.dropWhile Char.isWhitespace).reverse.dropWhile Char.isWhitespace).reverse

/-- splitting a string at every occurrence of a separator character. -/
def splitOnChar (s : String) (c : Char) : List String :=
  (s.data.splitOn c).map String.mk

/-- models Python int() applied to attribute text: surrounding whitespace
is stripped, an optional sign is accepted, and anything that is not a
plain decimal numeral raises ValueError, modelled as none. -/
def pyInt (s : String) : Option Int :=
  match stripWS s.data with
  | [] => none
  | c :: rest =>
    let ds := if c = '-' ∨ c = '+' then rest else c :: rest
    if ds.isEmpty then none
    else if ds.all Char.isDigit then
      some (if c = '-' then - (digitsToNat ds : Int) else (digitsToNat ds : Int))
    else none

/-- models Python float() on attribute text: optional sign and a decimal
numeral with an optional fractional part, returned as an exact decimal,
a mantissa together with its number of fractional digits. Exotic
accepted forms such as exponents or infinities never occur in serialized
documents and are not modelled, and rounding short decimals to binary
floats never reorders distinct version numbers. -/
def pyFloat (s : String) : Option (Int × Nat) :=
  match stripWS s.data with
  | [] => none
  | c :: rest =>
    let body := if c = '-' ∨ c = '+' then rest else c :: rest
    let mk : List Char → List Char → Option (Int × Nat) := fun ip fp =>
      if ip.isEmpty ∧ fp.isEmpty then none
      else if ip.all Char.isDigit ∧ fp.all Char.isDigit then
        some ((if c = '-' then -1 else 1) * (digitsToNat (ip ++ fp) : Int), fp.length)
      else none
    match body.splitOn '.' with
    | [ip] => mk ip []
    | [ip, fp] => mk ip fp
    | _ => none

/-- the rational value of an exact decimal. -/
def decimalToRat (p : Int × Nat) : Rat := (p.1 : Rat) / (10 : Rat) ^ p.2

def pyStrInt (n : Int) : String := toString n

/-- digits of a natural number list, most significant first. -/
def parseNatDigits (cs : List Char) : Option Nat :=
  if cs.isEmpty then none
  else if cs.all Char.isDigit then some (digitsToNat cs) else none

/-- Modelled from the spec: stdm.utils.util.date_from_string lives outside
src/settings; it turns yyyy-MM-dd text into a date value and raises
ValueError (modelled as none) on malformed text. -/
def date_from_string (s : String) : Option (Nat × Nat × Nat) :=
  match splitOnChar s '-' with
  | [y, m, d] =>
    match parseNatDigits y.data, parseNatDigits m.data, parseNatDigits d.data with
    | some yv, some mv, some dv =>
        if 1 ≤ mv ∧ mv ≤ 12 ∧ 1 ≤ dv ∧ dv ≤ 31 then some (yv, mv, dv) else none
    | _, _, _ => none
  | _ => none

/-- Modelled from the spec: stdm.utils.util.datetime_from_string lives
outside src/settings; it parses yyyy-MM-dd HH:mm:ss text, raising
ValueError (modelled as none) on malformed text. -/
def datetime_from_string (s : String) :
    Option ((Nat × Nat × Nat) × (Nat × Nat × Nat)) :=
  match splitOnChar s ' ' with
  | [d, t] =>
    match date_from_string d, splitOnChar t ':' with
    | some dv, [h, mi, se] =>
      match parseNatDigits h.data, parseNatDigits mi.data, parseNatDigits se.data with
      | some hv, some miv, some sev =>
          if hv ≤ 23 ∧ miv ≤ 59 ∧ sev ≤ 59 then some (dv, (hv, miv, sev)) else none
      | _, _, _ => none
    | _, _ => none
  | _ => none

/-- models a QDomElement: a tag name, attributes in document order and
child elements. The serializer never reads text nodes, so they are not
modelled; converting a non element node with toElement yields a null
element whose tag is empty, which no reader matches. -/
inductive Element where
  | mk (tag : String) (attrs : List (String × String)) (children : List Element)

def Element.tag : Element → String
  | .mk t _ _ => t

def Element.attrs : Element → List (String × String)
  | .mk _ a _ => a

def Element.children : Element → List Element
  | .mk _ _ c => c

/-- models QDomElement.attribute(name, default). -/
def Element.attribute (e : Element) (name default : String) : String :=
  match e.attrs.find? (fun p => p.1 == name) with
  | some p => p.2
  | none => default

def Element.hasAttribute (e : Element) (name : String) : Bool :=
  (e.attrs.find? (fun p => p.1 == name)).isSome

/-- models QDomElement.firstChildElement(tag): the first child element
carrying the tag, or the null element, modelled as none. -/
def Element.firstChildElement (e : Element) (t : String) : Option Element :=
  e.children.find? (fun c => c.tag == t)

/-- models QDomElement.setAttribute: overwrites an existing attribute of
the same name, otherwise appends it. -/
def attrsSet (attrs : List (String × String)) (k v : String) : List (String × String) :=
  if (attrs.find? (fun p => p.1 == k)).isSome then
    attrs.map (fun p => if p.1 == k then (k, v) else p)
  else attrs ++ [(k, v)]

def Element.setAttribute (e : Element) (k v : String) : Element :=
  .mk e.tag (attrsSet e.attrs k v) e.children

def Element.appendChild (e : Element) (c : Element) : Element :=
  .mk e.tag e.attrs (e.children ++ [c])

mutual
/-- models QDomElement.elementsByTagName: every descendant element with
the given tag, in document (preorder) order. -/
def Element.elementsByTagName (t : String) : Element → List Element
  | .mk _ _ cs => elemsByTagInList t cs

def elemsByTagInList (t : String) : List Element → List Element
  | [] => []
  | c :: rest =>
      (if c.tag = t then [c] else []) ++ Element.elementsByTagName t c
        ++ elemsByTagInList t rest
end

/-- models a Python dict with string keys: assignment overwrites in place,
lookup returns the stored value or None. -/
def dictSet {α : Type} (d : List (String × α)) (k : String) (v : α) :
    List (String × α) :=
  if (d.find? (fun p => p.1 == k)).isSome then
    d.map (fun p => if p.1 == k then (k, v) else p)
  else d ++ [(k, v)]

def dictGet {α : Type} (d : List (String × α)) (k : String) : Option α :=
  (d.find? (fun p => p.1 == k)).map (fun p => p.2)

/-- Modelled from the spec: the EntityRelation domain class (outside
src/settings). The serializer reads parent, child and the two column
names; it never passes a name, which the class derives internally,
modelled here as the empty string. -/
structure EntityRelation where
  name : String := ""
  parent : String := ""
  parent_column : String := ""
  child : String := ""
  child_column : String := ""
deriving DecidableEq

/-- bounds carried by minimum and maximum attributes, typed per column
kind: integer, float, date, date time, or raw text for the kinds whose
base conversion leaves the string untouched. -/
inductive BoundValue where
  | intVal (n : Int)
  | floatVal (q : Rat)
  | strVal (s : String)
  | dateVal (d : Nat × Nat × Nat)
  | dateTimeVal (d : (Nat × Nat × Nat) × (Nat × Nat × Nat))
deriving DecidableEq

/-- Modelled from the spec: the column domain classes live outside
src/settings; the record keeps exactly the data the serializer reads and
writes. none for a bound means the attribute was never set and the kind
default is in force; association_name is maintained by the multiple
select column class, the serializer only writes it. -/
structure Column where
  type_info : String := ""
  name : String := ""
  description : String := ""
  index : Bool := false
  mandatory : Bool := false
  searchable : Bool := false
  unique : Bool := false
  user_tip : String := ""
  minimum : Option BoundValue := none
  maximum : Option BoundValue := none
  entity_relation : Option EntityRelation := none
  first_parent : Option String := none
  association_name : String := ""
  geom_type : Int := 2
  srid : Int := 4326
deriving DecidableEq

/-- Modelled from the spec: the Entity domain class (outside
src/settings): short name, derived name, description, capability flags
and an insertion ordered mapping of column name to column. Constructor
defaults are modelled from the spec. -/
structure Entity where
  short_name : String := ""
  name : String := ""
  description : String := ""
  is_global : Bool := false
  is_proxy : Bool := false
  create_id_column : Bool := true
  supports_documents : Bool := true
  is_associative : Bool := false
  user_editable : Bool := true
  columns : List (String × Column) := []
deriving DecidableEq

def Entity.add_column (e : Entity) (c : Column) : Entity :=
  { e with columns := dictSet e.columns c.name c }

/-- Modelled from the spec: the ValueList domain class (outside
src/settings): a short name and code value pairs keyed by value, as
add_value(value, code) stores them. -/
structure ValueList where
  short_name : String := ""
  values : List (String × String) := []
deriving DecidableEq

/-- Modelled from the spec: the AssociationEntity domain class (outside
src/settings): a short name, a derived name and two parent references by
short name. -/
structure AssociationEntity where
  short_name : String := ""
  name : String := ""
  first_parent : String := ""
  second_parent : String := ""
deriving DecidableEq

/-- the three entity like variants a profile can own. -/
inductive EntityObj where
  | entity (e : Entity)
  | valueList (v : ValueList)
  | association (a : AssociationEntity)
deriving DecidableEq

def EntityObj.short_name : EntityObj → String
  | .entity e => e.short_name
  | .valueList v => v.short_name
  | .association a => a.short_name

/-- TYPE_INFO of the entity like domain classes, the registry keys the
source registers its entity serializers under. -/
def EntityObj.type_info : EntityObj → String
  | .entity _ => "ENTITY"
  | .valueList _ => "VALUE_LIST"
  | .association _ => "ASSOCIATION_ENTITY"

/-- Modelled from the spec: the SocialTenure configuration (outside
src/settings), referencing a party entity, a spatial unit entity and a
tenure type value list by short name. -/
structure SocialTenure where
  party : String := ""
  spatial_unit : String := ""
  tenure_type : String := ""
deriving DecidableEq

/-- Modelled from the spec: the Profile domain class (outside
src/settings): a name, a short name keyed insertion ordered mapping of
entity like objects whose collisions overwrite silently, a name keyed
mapping of entity relations and one social tenure configuration. -/
structure Profile where
  name : String := ""
  entities : List (String × EntityObj) := []
  relations : List (String × EntityRelation) := []
  social_tenure : SocialTenure := {}
deriving DecidableEq

def Profile.add_entity (p : Profile) (o : EntityObj) : Profile :=
  { p with entities := dictSet p.entities o.short_name o }

def Profile.hasEntity (p : Profile) (n : String) : Bool :=
  (dictGet p.entities n).isSome

/-- Modelled from the spec: EntityRelation.valid, a (status, message)
pair that holds exactly when the parent and child short names already
resolve to entities of the owning profile. -/
def EntityRelation.valid (er : EntityRelation) (profile : Profile) : Bool × String :=
  if ¬ profile.hasEntity er.parent then (false, "parent entity is missing")
  else if ¬ profile.hasEntity er.child then (false, "child entity is missing")
  else (true, "")

/-- Modelled from the spec: the StdmConfiguration singleton, a version
number constant and a profile name keyed mapping. -/
structure StdmConfig where
  profiles : List (String × Profile) := []
deriving DecidableEq

/-- Modelled from the spec: the running configuration version; its exact
numeric value lives outside src/settings and no claim depends on it. -/
def StdmConfiguration.VERSION : Rat := (12 : Rat) / 10

/-- Modelled from the spec: StdmConfiguration._clear resets every loaded
item, leaving the empty configuration. -/
def StdmConfig._clear (_c : StdmConfig) : StdmConfig := {}

def StdmConfig.add_profile (c : StdmConfig) (p : Profile) : StdmConfig :=
  { c with profiles := dictSet c.profiles p.name p }

/-- translation of EntityRelationSerializer.read_xml: builds an
EntityRelation from the parent, child, parentColumn and childColumn
attributes; the name attribute is never read back. -/
def EntityRelationSerializer.read_xml (element : Element) : EntityRelation :=
  { parent := element.attribute "parent" ""
    child := element.attribute "child" ""
    parent_column := element.attribute "parentColumn" ""
    child_column := element.attribute "childColumn" "" }

/-- translation of EntityRelationSerializer.write_xml; the source takes
the short names from the live parent and child entity objects, which the
relation record stores directly. -/
def EntityRelationSerializer.write_xml (entity_relation : EntityRelation)
    (parent_node : Element) : Element :=
  let er_element := Element.mk "EntityRelation" [] []
  let er_element := er_element.setAttribute "name" entity_relation.name
  let er_element := er_element.setAttribute "parent" entity_relation.parent
  let er_element := er_element.setAttribute "parentColumn" entity_relation.parent_column
  let er_element := er_element.setAttribute "child" entity_relation.child
  let er_element := er_element.setAttribute "childColumn" entity_relation.child_column
  parent_node.appendChild er_element

/-- the registered column serializer classes, one per COLUMN_TYPE_INFO
tag. The TEXT serializer of source line 1160 is immediately overwritten
in the registry by the one of line 1182, so only the latter, whose bound
conversion is int(), is modelled. -/
inductive ColumnSer where
  | text | varchar | bigint | double | serial | date | datetime | yesno
  | geometry | foreignKey | lookup | adminSpatialUnit | multipleSelect
deriving DecidableEq

/-- translation of ColumnSerializerCollection.handler: exact tag lookup
in the registry populated by the register() calls of the source. -/
def ColumnSerializerCollection.handler : String → Option ColumnSer
  | "TEXT" => some .text
  | "VARCHAR" => some .varchar
  | "BIGINT" => some .bigint
  | "DOUBLE" => some .double
  | "SERIAL" => some .serial
  | "DATE" => some .date
  | "DATETIME" => some .datetime
  | "YES_NO" => some .yesno
  | "GEOMETRY" => some .geometry
  | "FOREIGN_KEY" => some .foreignKey
  | "LOOKUP" => some .lookup
  | "ADMIN_SPATIAL_UNIT" => some .adminSpatialUnit
  | "MULTIPLE_SELECT" => some .multipleSelect
  | _ => none

/-- the COLUMN_TYPE_INFO constant of each serializer class. -/
def ColumnSer.COLUMN_TYPE_INFO : ColumnSer → String
  | .text => "TEXT"
  | .varchar => "VARCHAR"
  | .bigint => "BIGINT"
  | .double => "DOUBLE"
  | .serial => "SERIAL"
  | .date => "DATE"
  | .datetime => "DATETIME"
  | .yesno => "YES_NO"
  | .geometry => "GEOMETRY"
  | .foreignKey => "FOREIGN_KEY"
  | .lookup => "LOOKUP"
  | .adminSpatialUnit => "ADMIN_SPATIAL_UNIT"
  | .multipleSelect => "MULTIPLE_SELECT"

/-- translation of ColumnSerializerCollection.type_info. -/
def ColumnSerializerCollection.type_info (element : Element) : String :=
  element.attribute "TYPE_INFO" ""

/-- translation of ColumnSerializerCollection.handler_by_element. -/
def ColumnSerializerCollection.handler_by_element (element : Element) :
    Option ColumnSer :=
  let t_info := ColumnSerializerCollection.type_info element
  if t_info = "" then none
  else ColumnSerializerCollection.handler t_info

/-- translation of the per class _convert_bounds_type overrides: the base
implementation returns the raw text, int() and float() raise ValueError
on bad text (modelled as none), and the date kinds delegate to the
external parsing utilities. -/
def ColumnSer.convert_bounds : ColumnSer → String → Option BoundValue
  | .text, v => (pyInt v).map .intVal
  | .varchar, v => (pyInt v).map .intVal
  | .bigint, v => (pyInt v).map .intVal
  | .double, v => (pyFloat v).map (fun p => .floatVal (decimalToRat p))
  | .date, v => (date_from_string v).map .dateVal
  | .datetime, v => (datetime_from_string v).map .dateTimeVal
  | _, v => some (.strVal v)

/-- the (args, kwargs) data of the column constructor call that the per
kind _obj_args hooks can alter: the positional name argument (popped by
the administrative spatial unit kind), the positional geometry type with
its srid keyword, and the relation or association keywords. -/
structure ConstructArgs where
  name : Option String := none
  geom_type : Option Int := none
  srid : Option Int := none
  entity_relation : Option EntityRelation := none
  first_parent : Option String := none
deriving DecidableEq

/-- translation of ForeignKeyColumnSerializer._obj_args: the first
Relation child names an entity relation; only when that name is found in
the relation index and the rebuilt relation is valid for the owning
profile is it attached to the constructor arguments. -/
def ForeignKeyColumnSerializer._obj_args (cargs : ConstructArgs) (element : Element)
    (profile : Profile) (entity_relation_elements : List (String × Element)) :
    ConstructArgs :=
  match element.firstChildElement "Relation" with
  | none => cargs
  | some relation_el =>
    let relation_name := relation_el.attribute "name" ""
    match dictGet entity_relation_elements relation_name with
    | none => cargs
    | some er_element =>
      let er := EntityRelationSerializer.read_xml er_element
      if (er.valid profile).1 then { cargs with entity_relation := some er }
      else cargs

/-- an attribute the source feeds straight into int(); malformed text
would raise an uncaught exception there, which no serialized document and
no claim exercises, so the parse failure is absorbed. -/
def pyIntAttr (element : Element) (name default : String) : Int :=
  (pyInt (element.attribute name default)).getD 0

/-- translation of GeometryColumnSerializer._obj_args: the first Geometry
child supplies the geometry type code (attribute default 2) and the srid
(attribute default 4326). -/
def GeometryColumnSerializer._obj_args (cargs : ConstructArgs) (element : Element) :
    ConstructArgs :=
  match element.firstChildElement "Geometry" with
  | none => cargs
  | some geom_el =>
      { cargs with
        geom_type := some (pyIntAttr geom_el "type" "2")
        srid := some (pyIntAttr geom_el "srid" "4326") }

/-- translation of MultipleSelectColumnSerializer._obj_args: the first
associationEntity child names an association; when found in the
association index, its firstParent attribute is passed through when non
empty. -/
def MultipleSelectColumnSerializer._obj_args (cargs : ConstructArgs) (element : Element)
    (associations : List (String × Element)) : ConstructArgs :=
  match element.firstChildElement "associationEntity" with
  | none => cargs
  | some assoc_el =>
    let assoc_name := assoc_el.attribute "name" ""
    match dictGet associations assoc_name with
    | none => cargs
    | some association_element =>
      let first_parent := association_element.attribute "firstParent" ""
      if first_parent ≠ "" then { cargs with first_parent := some first_parent }
      else cargs

/-- dispatch of the _obj_args hook: the base implementation returns the
arguments unchanged; the lookup kind inherits the foreign key
implementation, while the administrative spatial unit override replaces
it entirely, only popping the positional name argument (source line
1376). -/
def ColumnSer._obj_args (cls : ColumnSer) (cargs : ConstructArgs) (element : Element)
    (profile : Profile)
    (associations entity_relation_elements : List (String × Element)) :
    ConstructArgs :=
  match cls with
  | .geometry => GeometryColumnSerializer._obj_args cargs element
  | .foreignKey =>
      ForeignKeyColumnSerializer._obj_args cargs element profile entity_relation_elements
  | .lookup =>
      ForeignKeyColumnSerializer._obj_args cargs element profile entity_relation_elements
  | .adminSpatialUnit => { cargs with name := none }
  | .multipleSelect => MultipleSelectColumnSerializer._obj_args cargs element associations
  | _ => cargs

/-- the keyword arguments assembled by ColumnSerializerCollection.read
before the per kind hook runs. -/
structure ColumnKwargs where
  description : String := ""
  index : Bool := false
  mandatory : Bool := false
  searchable : Bool := false
  unique : Bool := false
  user_tip : String := ""
  minimum : Option BoundValue := none
  maximum : Option BoundValue := none
deriving DecidableEq

/-- Modelled from the spec: BaseColumn.column_type, the type indexed
constructor table of the column domain classes (outside src/settings);
the spec registers exactly one column class per serializer tag. -/
def BaseColumn.column_type (t : String) : Option ColumnSer :=
  ColumnSerializerCollection.handler t

/-- Modelled from the spec: the name preset by convention for an
administrative spatial unit column, whose constructor receives no name
argument. -/
def adminSpatialUnitPresetName : String := "admin_spatial_unit"

/-- Modelled from the spec: the column class constructor applied to the
positional and keyword arguments assembled by the serializer; absent
geometry arguments fall back to type code 2 and srid 4326. -/
def constructColumn (type_info : String) (cargs : ConstructArgs) (k : ColumnKwargs) :
    Column :=
  { type_info := type_info
    name := cargs.name.getD adminSpatialUnitPresetName
    description := k.description
    index := k.index
    mandatory := k.mandatory
    searchable := k.searchable
    unique := k.unique
    user_tip := k.user_tip
    minimum := k.minimum
    maximum := k.maximum
    entity_relation := cargs.entity_relation
    first_parent := cargs.first_parent
    geom_type := (cargs.geom_type).getD 2
    srid := (cargs.srid).getD 4326 }

/-- translation of ColumnSerializerCollection.read. The source reaches
the owning profile through entity.profile; the embedding passes the
profile explicitly to keep the records acyclic. -/
def ColumnSerializerCollection.read (cls : ColumnSer) (element : Element)
    (entity : Entity) (profile : Profile)
    (associations entity_relation_elements : List (String × Element)) : Entity :=
  let col_type_info := ColumnSerializerCollection.type_info element
  if col_type_info = "" then entity
  else
    let name := element.attribute "name" ""
    if name = "" then entity
    else
      let kwargs : ColumnKwargs :=
        { description := element.attribute "description" ""
          index := _str_to_bool (element.attribute "index" "False")
          mandatory := _str_to_bool (element.attribute "mandatory" "False")
          searchable := _str_to_bool (element.attribute "searchable" "False")
          unique := _str_to_bool (element.attribute "unique" "False")
          user_tip := element.attribute "tip" "" }
      let kwargs :=
        if element.hasAttribute "minimum" then
          match cls.convert_bounds (element.attribute "minimum" "") with
          | some v => { kwargs with minimum := some v }
          | none => kwargs
        else kwargs
      let kwargs :=
        if element.hasAttribute "maximum" then
          match cls.convert_bounds (element.attribute "maximum" "") with
          | some v => { kwargs with maximum := some v }
          | none => kwargs
        else kwargs
      let cargs : ConstructArgs := { name := some name }
      let cargs := cls._obj_args cargs element profile associations entity_relation_elements
      match BaseColumn.column_type col_type_info with
      | none => entity
      | some _ => entity.add_column (constructColumn col_type_info cargs kwargs)

/-- translation of ColumnSerializerCollection.read_xml: dispatch through
the registry; an element without a handler is ignored. -/
def ColumnSerializerCollection.read_xml (element : Element) (entity : Entity)
    (profile : Profile)
    (associations entity_relation_elements : List (String × Element)) : Entity :=
  match ColumnSerializerCollection.handler_by_element element with
  | none => entity
  | some column_handler =>
      ColumnSerializerCollection.read column_handler element entity profile
        associations entity_relation_elements

/-- zero padded two digit rendering, as str() applies to date fields. -/
def pad2 (n : Nat) : String := if n < 10 then "0" ++ toString n else toString n

/-- models str() on the bound values the source can write; rendering of a
non integral float is approximated, no claim depends on it. -/
def boundToString : BoundValue → String
  | .intVal n => pyStrInt n
  | .strVal s => s
  | .floatVal q => if q.den = 1 then pyStrInt q.num ++ ".0" else toString q
  | .dateVal d => toString d.1 ++ "-" ++ pad2 d.2.1 ++ "-" ++ pad2 d.2.2
  | .dateTimeVal d =>
      toString d.1.1 ++ "-" ++ pad2 d.1.2.1 ++ "-" ++ pad2 d.1.2.2 ++ " "
        ++ pad2 d.2.1 ++ ":" ++ pad2 d.2.2.1 ++ ":" ++ pad2 d.2.2.2

/-- translation of the per kind _write_xml hooks: geometry appends its
descriptor, the foreign key family appends the relation name (the source
assumes a relation object is attached), multiple select appends the
association name; the base implementation does nothing. -/
def ColumnSer._write_xml (cls : ColumnSer) (column : Column)
    (column_element : Element) : Element :=
  match cls with
  | .geometry =>
      let geom_element := Element.mk "Geometry" [] []
      let geom_element := geom_element.setAttribute "srid" (pyStrInt column.srid)
      let geom_element := geom_element.setAttribute "type" (pyStrInt column.geom_type)
      column_element.appendChild geom_element
  | .foreignKey | .lookup | .adminSpatialUnit =>
      let fk_element := Element.mk "Relation" [] []
      let fk_element := fk_element.setAttribute "name"
        (((column.entity_relation).map (fun er => er.name)).getD "")
      column_element.appendChild fk_element
  | .multipleSelect =>
      let association_entity_element := Element.mk "associationEntity" [] []
      let association_entity_element :=
        association_entity_element.setAttribute "name" column.association_name
      column_element.appendChild association_entity_element
  | _ => column_element

/-- translation of ColumnSerializerCollection.write_xml; a bound is
written whenever the column object carries one. -/
def ColumnSerializerCollection.write_xml (cls : ColumnSer) (column : Column)
    (parent_node : Element) : Element :=
  let col_element := Element.mk "Column" [] []
  let col_element := col_element.setAttribute "TYPE_INFO" cls.COLUMN_TYPE_INFO
  let col_element := col_element.setAttribute "description" column.description
  let col_element := col_element.setAttribute "name" column.name
  let col_element := col_element.setAttribute "index" (pyStrBool column.index)
  let col_element := col_element.setAttribute "mandatory" (pyStrBool column.mandatory)
  let col_element := col_element.setAttribute "searchable" (pyStrBool column.searchable)
  let col_element := col_element.setAttribute "unique" (pyStrBool column.unique)
  let col_element := col_element.setAttribute "tip" column.user_tip
  let col_element :=
    match column.minimum with
    | some b => col_element.setAttribute "minimum" (boundToString b)
    | none => col_element
  let col_element :=
    match column.maximum with
    | some b => col_element.setAttribute "maximum" (boundToString b)
    | none => col_element
  let col_element := cls._write_xml column col_element
  parent_node.appendChild col_element

/-- the registered entity serializer classes, in registration order. -/
inductive EntitySer where
  | entity | association | valueList
deriving DecidableEq

/-- translation of EntitySerializerCollection.handler, the registry keyed
by ENTITY_TYPE_INFO. -/
def EntitySerializerCollection.handler : String → Option EntitySer
  | "ENTITY" => some .entity
  | "ASSOCIATION_ENTITY" => some .association
  | "VALUE_LIST" => some .valueList
  | _ => none

/-- translation of entry_tag_name: the GROUP_TAG when the class defines
one, else the TAG_NAME. -/
def EntitySer.entry_tag_name : EntitySer → String
  | .entity => "Entity"
  | .association => "Associations"
  | .valueList => "ValueLists"

/-- translation of EntitySerializerCollection.handler_by_tag_name: the
first registered serializer whose entry tag matches. -/
def EntitySerializerCollection.handler_by_tag_name (tag_name : String) :
    Option EntitySer :=
  ([EntitySer.entity, EntitySer.association, EntitySer.valueList].filter
      (fun s => s.entry_tag_name == tag_name)).head?

/-- translation of EntitySerializer.column_elements: the children of the
first Columns child element. -/
def EntitySerializer.column_elements (entity_element : Element) : List Element :=
  match entity_element.firstChildElement "Columns" with
  | none => []
  | some cols_group_el => cols_group_el.children

/-- translation of EntitySerializer.DEPENDENCY_FLAGS, the singleton list
[ForeignKeyColumn.TYPE_INFO]; FOREIGN_KEY is the tag the serializer
registry associates with that class (source line 1317). -/
def EntitySerializer.DEPENDENCY_FLAGS : List String := ["FOREIGN_KEY"]

/-- translation of EntitySerializer.has_dependency: true when some column
element carries a TYPE_INFO attribute whose value is in
DEPENDENCY_FLAGS. -/
def EntitySerializer.has_dependency (element : Element) : Bool :=
  (EntitySerializer.column_elements element).any (fun ce =>
    ce.hasAttribute "TYPE_INFO" &&
      EntitySerializer.DEPENDENCY_FLAGS.contains (ce.attribute "TYPE_INFO" ""))

/-- dispatch of has_dependency: only EntitySerializer overrides the base
implementation, which returns False. -/
def EntitySer.has_dependency (cls : EntitySer) (element : Element) : Bool :=
  match cls with
  | .entity => EntitySerializer.has_dependency element
  | _ => false

/-- one construction event of the loader, recorded when an object is
added to the profile; the trace makes the construction order provable. -/
inductive LoadEvent where
  | valueListAdded (name : String)
  | entityAdded (short_name : String)
deriving DecidableEq

/-- a profile under construction paired with its trace of additions. -/
abbrev PState := Profile × List LoadEvent

/-- translation of the column loop of EntitySerializer.read_xml: each
child of the Columns group whose tag is Column is read into the entity. -/
def EntitySerializer.readColumns (col_els : List Element) (ent : Entity)
    (profile : Profile)
    (associations entity_relation_elements : List (String × Element)) : Entity :=
  col_els.foldl (fun acc ce =>
    if ce.tag = "Column" then
      ColumnSerializerCollection.read_xml ce acc profile associations
        entity_relation_elements
    else acc) ent

/-- translation of EntitySerializer.read_xml. The optional argument dict
is mirrored by sequential record updates; in particular the createId
attribute is stored under the is_proxy key, exactly as source line 572
does, overwriting the value read from the proxy attribute, and create_id
keeps its constructor default. -/
def EntitySerializer.read_xml (child_element : Element) (st : PState)
    (associations entity_relation_elements : List (String × Element)) : PState :=
  let short_name := child_element.attribute "shortName" ""
  if short_name = "" then st
  else
    let ent : Entity := { short_name := short_name, name := short_name }
    let is_global := child_element.attribute "global" ""
    let ent := if is_global ≠ "" then { ent with is_global := _str_to_bool is_global } else ent
    let proxy := child_element.attribute "proxy" ""
    let ent := if proxy ≠ "" then { ent with is_proxy := _str_to_bool proxy } else ent
    let create_id := child_element.attribute "createId" ""
    let ent := if create_id ≠ "" then { ent with is_proxy := _str_to_bool create_id } else ent
    let supports_docs := child_element.attribute "supportsDocuments" ""
    let ent := if supports_docs ≠ "" then { ent with supports_documents := _str_to_bool supports_docs } else ent
    let associative := child_element.attribute "associative" ""
    let ent := if associative ≠ "" then { ent with is_associative := _str_to_bool associative } else ent
    let editable := child_element.attribute "editable" ""
    let ent := if editable ≠ "" then { ent with user_editable := _str_to_bool editable } else ent
    let ent := { ent with description := child_element.attribute "description" "" }
    let ent := EntitySerializer.readColumns (EntitySerializer.column_elements child_element)
      ent st.1 associations entity_relation_elements
    (st.1.add_entity (.entity ent), st.2 ++ [.entityAdded short_name])

/-- translation of the loop body of ValueListSerializer.read_xml: a
ValueList element with a non empty name becomes a value list added to
the profile; lookup items are added only when the value is not empty. -/
def ValueListSerializer.readOne (st : PState) (value_list_el : Element) : PState :=
  let name := value_list_el.attribute "name" ""
  if name = "" then st
  else
    let values := (value_list_el.elementsByTagName "CodeValue").foldl (fun acc cd_el =>
      let code := cd_el.attribute "code" ""
      let value := cd_el.attribute "value" ""
      if value ≠ "" then dictSet acc value code else acc) []
    let value_list : ValueList := { short_name := name, values := values }
    (st.1.add_entity (.valueList value_list), st.2 ++ [.valueListAdded name])

/-- translation of ValueListSerializer.read_xml: every ValueList
descendant of the group element is resolved in document order. -/
def ValueListSerializer.read_xml (child_element : Element) (st : PState) : PState :=
  (child_element.elementsByTagName "ValueList").foldl ValueListSerializer.readOne st

/-- translation of AssociationEntitySerializer.read_xml: builds the
association entity, without touching the profile, when the short name is
present. -/
def AssociationEntitySerializer.read_xml (element : Element) :
    Option AssociationEntity :=
  let short_name := element.attribute "shortName" ""
  if short_name = "" then none
  else some { short_name := short_name
              first_parent := element.attribute "firstParent" ""
              second_parent := element.attribute "secondParent" "" }

/-- translation of SocialTenureSerializer.read_xml: only the party and
spatialUnit attributes are read and, when non empty, stored in the
profile through set_social_tenure_attr; the tenureTypeList attribute is
never read. -/
def SocialTenureSerializer.read_xml (child_element : Element) (profile : Profile) :
    Profile :=
  let party := child_element.attribute "party" ""
  let spatial_unit := child_element.attribute "spatialUnit" ""
  let profile :=
    if party ≠ "" then
      { profile with social_tenure := { profile.social_tenure with party := party } }
    else profile
  if spatial_unit ≠ "" then
    { profile with social_tenure := { profile.social_tenure with spatial_unit := spatial_unit } }
  else profile

/-- translation of SocialTenureSerializer.write_xml: writes the party,
spatialUnit and tenureTypeList references, taken from the short names of
the referenced objects. -/
def SocialTenureSerializer.write_xml (social_tenure : SocialTenure)
    (parent_node : Element) : Element :=
  let social_tenure_element := Element.mk "SocialTenure" [] []
  let social_tenure_element :=
    social_tenure_element.setAttribute "party" social_tenure.party
  let social_tenure_element :=
    social_tenure_element.setAttribute "spatialUnit" social_tenure.spatial_unit
  let social_tenure_element :=
    social_tenure_element.setAttribute "tenureTypeList" social_tenure.tenure_type
  parent_node.appendChild social_tenure_element

/-- appends the child to the first element of the list carrying the tag. -/
def appendToFirstMatching : List Element → String → Element → List Element
  | [], _, _ => []
  | g :: rest, t, c =>
      if g.tag = t then g.appendChild c :: rest
      else g :: appendToFirstMatching rest t c

/-- translation of EntitySerializerCollection.group_element combined with
the appendChild that follows every call of it: the child is appended to
the first existing group element with the given tag, and the group is
created at the end of the parent when absent. -/
def appendToGroup (parent_node : Element) (group_tag : String) (child : Element) :
    Element :=
  if (parent_node.firstChildElement group_tag).isSome then
    Element.mk parent_node.tag parent_node.attrs
      (appendToFirstMatching parent_node.children group_tag child)
  else
    parent_node.appendChild ((Element.mk group_tag [] []).appendChild child)

/-- translation of EntitySerializer.write_xml. -/
def EntitySerializer.write_xml (entity : Entity) (parent_node : Element) : Element :=
  let entity_element := Element.mk "Entity" [] []
  let entity_element := entity_element.setAttribute "global" (pyStrBool entity.is_global)
  let entity_element := entity_element.setAttribute "shortName" entity.short_name
  let entity_element := entity_element.setAttribute "name" entity.name
  let entity_element := entity_element.setAttribute "description" entity.description
  let entity_element := entity_element.setAttribute "associative" (pyStrBool entity.is_associative)
  let entity_element := entity_element.setAttribute "editable" (pyStrBool entity.user_editable)
  let entity_element := entity_element.setAttribute "createId" (pyStrBool entity.create_id_column)
  let entity_element := entity_element.setAttribute "proxy" (pyStrBool entity.is_proxy)
  let entity_element := entity_element.setAttribute "supportsDocuments" (pyStrBool entity.supports_documents)
  let columns_element := entity.columns.foldl (fun acc p =>
    match ColumnSerializerCollection.handler p.2.type_info with
    | none => acc
    | some column_serializer =>
        ColumnSerializerCollection.write_xml column_serializer p.2 acc)
    (Element.mk "Columns" [] [])
  let entity_element := entity_element.appendChild columns_element
  parent_node.appendChild entity_element

/-- translation of ValueListSerializer.write_xml. -/
def ValueListSerializer.write_xml (value_list : ValueList) (parent_node : Element) :
    Element :=
  let value_list_element := (Element.mk "ValueList" [] []).setAttribute "name" value_list.short_name
  let value_list_element := value_list.values.foldl (fun acc cv =>
    let cd_element := Element.mk "CodeValue" [] []
    let cd_element := cd_element.setAttribute "value" cv.1
    let cd_element := cd_element.setAttribute "code" cv.2
    acc.appendChild cd_element) value_list_element
  appendToGroup parent_node "ValueLists" value_list_element

/-- translation of AssociationEntitySerializer.write_xml. -/
def AssociationEntitySerializer.write_xml (association_entity : AssociationEntity)
    (parent_node : Element) : Element :=
  let assoc_entity_element := Element.mk "Association" [] []
  let assoc_entity_element := assoc_entity_element.setAttribute "name" association_entity.name
  let assoc_entity_element := assoc_entity_element.setAttribute "shortName" association_entity.short_name
  let assoc_entity_element := assoc_entity_element.setAttribute "firstParent" association_entity.first_parent
  let assoc_entity_element := assoc_entity_element.setAttribute "secondParent" association_entity.second_parent
  appendToGroup parent_node "Associations" assoc_entity_element

/-- dispatch of write_xml through the entity serializer registry; the
object variant always matches the serializer the registry returned for
its TYPE_INFO, the remaining cases are unreachable. -/
def EntitySer.write_xml (cls : EntitySer) (obj : EntityObj) (parent_node : Element) :
    Element :=
  match cls, obj with
  | .entity, .entity e => EntitySerializer.write_xml e parent_node
  | .valueList, .valueList v => ValueListSerializer.write_xml v parent_node
  | .association, .association a => AssociationEntitySerializer.write_xml a parent_node
  | _, _ => parent_node

/-- dispatch of read_xml through the entity serializer registry; the
association serializer builds its object without adding it to the
profile, so the profile state is returned unchanged. -/
def EntitySer.read_xml (cls : EntitySer) (element : Element) (st : PState)
    (associations entity_relation_elements : List (String × Element)) : PState :=
  match cls with
  | .entity => EntitySerializer.read_xml element st associations entity_relation_elements
  | .valueList => ValueListSerializer.read_xml element st
  | .association => st

/-- translation of _populate_collections_from_element: every child of the
first group element with the given tag that carries a name attribute is
indexed under that name. -/
def _populate_collections_from_element (element : Element) (tag_name : String) :
    List (String × Element) :=
  match element.firstChildElement tag_name with
  | none => []
  | some group_el =>
      group_el.children.foldl (fun collection er_el =>
        if er_el.hasAttribute "name" then
          dictSet collection (er_el.attribute "name" "") er_el
        else collection) []

/-- translation of the body of the first loop over child nodes in
ProfileSerializer.read_xml: a non dependency bearing Entity element is
read at once, a dependency bearing one is queued with its serializer,
and any other child is skipped. -/
def ProfileSerializer.firstPassStep
    (associations entity_relation_elements : List (String × Element))
    (acc : PState × List (Element × EntitySer)) (child_element : Element) :
    PState × List (Element × EntitySer) :=
  let item_serializer := EntitySerializerCollection.handler_by_tag_name child_element.tag
  if child_element.tag = "Entity" then
    match item_serializer with
    | none => acc
    | some s =>
        if ¬ (s.has_dependency child_element) then
          (s.read_xml child_element acc.1 associations entity_relation_elements, acc.2)
        else (acc.1, acc.2 ++ [(child_element, s)])
  else acc

/-- translation of the first loop over child nodes in
ProfileSerializer.read_xml. -/
def ProfileSerializer.firstPass (child_nodes : List Element) (st : PState)
    (associations entity_relation_elements : List (String × Element)) :
    PState × List (Element × EntitySer) :=
  child_nodes.foldl (ProfileSerializer.firstPassStep associations entity_relation_elements)
    (st, [])

/-- translation of the loop body over the deferred items of
ProfileSerializer.read_xml: each queued element is read through the
serializer it was queued with. -/
def ProfileSerializer.readDeferredStep
    (associations entity_relation_elements : List (String × Element))
    (st : PState) (c : Element × EntitySer) : PState :=
  c.2.read_xml c.1 st associations entity_relation_elements

/-- translation of ProfileSerializer.read_xml: build the association and
relation indexes, resolve value lists, run the two passes over entity
elements and attach the social tenure references; a profile without a
name is not loaded. -/
def ProfileSerializer.read_xml (element : Element) : Option PState :=
  let profile_name := element.attribute "name" ""
  if profile_name = "" then none
  else
    let association_elements := _populate_collections_from_element element "Associations"
    let entity_relation_elements := _populate_collections_from_element element "Relations"
    let st : PState := ({ name := profile_name }, [])
    let st :=
      match element.firstChildElement "ValueLists" with
      | none => st
      | some value_lists_el => ValueListSerializer.read_xml value_lists_el st
    let pair := ProfileSerializer.firstPass element.children st association_elements
      entity_relation_elements
    let st := pair.2.foldl
      (ProfileSerializer.readDeferredStep association_elements entity_relation_elements)
      pair.1
    let st :=
      match element.firstChildElement "SocialTenure" with
      | none => st
      | some str_el => (SocialTenureSerializer.read_xml str_el st.1, st.2)
    some st

/-- translation of the body of ProfileSerializer.write_xml that builds
the profile element, the element the source appends to the parent node. -/
def ProfileSerializer.profile_element (profile : Profile) : Element :=
  let profile_element := (Element.mk "Profile" [] []).setAttribute "name" profile.name
  let profile_element := profile.entities.foldl (fun acc p =>
    match EntitySerializerCollection.handler p.2.type_info with
    | none => acc
    | some item_serializer => item_serializer.write_xml p.2 acc) profile_element
  let er_parent_element := profile.relations.foldl (fun acc p =>
    EntityRelationSerializer.write_xml p.2 acc) (Element.mk "Relations" [] [])
  let profile_element := profile_element.appendChild er_parent_element
  SocialTenureSerializer.write_xml profile.social_tenure profile_element

/-- translation of ProfileSerializer.write_xml. -/
def ProfileSerializer.write_xml (profile : Profile) (parent_node : Element) : Element :=
  parent_node.appendChild (ProfileSerializer.profile_element profile)

/-- the configuration level errors ConfigurationFileSerializer.read_xml
can raise: the configuration error of a failed upgrade, the error raised
when the version text is empty, and the uncaught ValueError of float()
on non numeric text. -/
inductive ConfigError where
  | updateFailed
  | versionExtract
  | valueError
deriving DecidableEq

/-- translation of ConfigurationFileSerializer.update: the updater object
is not plugged in, the call always reports failure with no document. -/
def ConfigurationFileSerializer.update : Bool × Option Element := (false, none)

/-- translation of _update_status: the external upgrade step is invoked;
when it reports failure a configuration error is raised, which is the
only possible outcome here since update always fails. -/
def ConfigurationFileSerializer._update_status : Option ConfigError :=
  if ConfigurationFileSerializer.update.1 = false then some .updateFailed else none

/-- translation of _load_config_items: every Profile element is read and
every non null resulting profile is registered in the configuration. -/
def ConfigurationFileSerializer._load_config_items (element : Element)
    (config : StdmConfig) : StdmConfig :=
  (element.elementsByTagName "Profile").foldl (fun config profile_element =>
    match ProfileSerializer.read_xml profile_element with
    | some st => config.add_profile st.1
    | none => config) config

/-- translation of ConfigurationFileSerializer.read_xml. The document is
represented by its root element, none when the root is null; the result
pairs the in memory configuration as the call leaves it with the raised
configuration error, if any. The items are reset first, then the upgrade
gate runs, then the profiles are loaded. -/
def ConfigurationFileSerializer.read_xml (document : Option Element)
    (config : StdmConfig) : StdmConfig × Option ConfigError :=
  let config := StdmConfig._clear config
  match document with
  | none => (config, ConfigurationFileSerializer._update_status)
  | some doc_element =>
    if ¬ doc_element.hasAttribute "version" then
      (config, ConfigurationFileSerializer._update_status)
    else
      let config_version := doc_element.attribute "version" ""
      if config_version = "" then (config, some .versionExtract)
      else
        match pyFloat config_version with
        | none => (config, some .valueError)
        | some v =>
          if decimalToRat v < StdmConfiguration.VERSION then
            (config, ConfigurationFileSerializer._update_status)
          else (ConfigurationFileSerializer._load_config_items doc_element config, none)

/-- the suffix of a path as QFileInfo.suffix computes it: the text after
the last dot of the file name, empty when the file name has no dot. -/
def QFileInfo.suffix (path : String) : String :=
  let file_name := (splitOnChar path '/').getLastD ""
  let parts := splitOnChar file_name '.'
  if parts.length ≤ 1 then "" else parts.getLastD ""

/-- models the Python expression unicode(save_file_info.suffix()).lower of
source line 85: the call parentheses are missing, so the expression
denotes the bound method object of the suffix string, not the lowercased
text. -/
structure PyBoundMethod where
  receiver : String
deriving DecidableEq

def suffixLowerMethod (path : String) : PyBoundMethod :=
  { receiver := QFileInfo.suffix path }

/-- models the Python 2 comparison of a bound method object with a
string: objects of unrelated types are never equal, so the inequality
always holds, whatever the receiver. -/
def pyNeMethodStr (_m : PyBoundMethod) (_s : String) : Bool := true

/-- translation of the suffix normalization step of
ConfigurationFileSerializer.save, source lines 83 to 87: the path is
extended exactly when the negated inequality holds. -/
def ConfigurationFileSerializer.savePath (path : String) : String :=
  if ¬ (pyNeMethodStr (suffixLowerMethod path) "stc") then path ++ "." ++ "stc"
  else path

/-- models unicode.lower on a single character, ASCII range. -/
def pyLowerChar (c : Char) : Char :=
  if 65 ≤ c.toNat ∧ c.toNat ≤ 90 then Char.ofNat (c.toNat + 32) else c

/-- models unicode.lower on a whole string, ASCII range. -/
def pyLower (s : String) : String := String.mk (s.data.map pyLowerChar)

/-- Modelled from the spec: the suffix normalization save is documented
to perform — append the stc extension when the current suffix, compared
case insensitively, is not already stc. -/
def savePathExpected (path : String) : String :=
  if pyLower (QFileInfo.suffix path) ≠ "stc" then path ++ "." ++ "stc" else path

/-- the classification rule of the specification: some column element
carries a foreign key family type tag, the foreign key kind or one of
its lookup and administrative spatial unit specializations. -/
def hasForeignKeyFamilyColumn (element : Element) : Bool :=
  (EntitySerializer.column_elements element).any (fun ce =>
    ce.hasAttribute "TYPE_INFO" &&
      ["FOREIGN_KEY", "LOOKUP", "ADMIN_SPATIAL_UNIT"].contains
        (ce.attribute "TYPE_INFO" ""))

/-- the construction events one Entity element contributes: one entity
addition when its short name is non empty, none otherwise. -/
def entityEvents (ce : Element) : List LoadEvent :=
  if ce.attribute "shortName" "" = "" then []
  else [.entityAdded (ce.attribute "shortName" "")]

/-- the construction events one ValueList element contributes. -/
def valueListElementEvents (v : Element) : List LoadEvent :=
  if v.attribute "name" "" = "" then []
  else [.valueListAdded (v.attribute "name" "")]

/-- the events contributed elementwise by a list of elements. -/
def eventsOf (f : Element → List LoadEvent) : List Element → List LoadEvent
  | [] => []
  | x :: xs => f x ++ eventsOf f xs

/-- the value list events of a whole profile element: every ValueList
descendant of the first ValueLists child group, in document order. -/
def valueListEvents (element : Element) : List LoadEvent :=
  match element.firstChildElement "ValueLists" with
  | none => []
  | some g => eventsOf valueListElementEvents (g.elementsByTagName "ValueList")

/-- the Entity children the loader constructs in its first pass: tag
Entity and no dependency bearing column. -/
def immediateChildren (element : Element) : List Element :=
  element.children.filter (fun c =>
    c.tag == "Entity" && !(EntitySerializer.has_dependency c))

/-- the Entity children the loader queues: tag Entity and at least one
dependency bearing column. -/
def deferredChildren (element : Element) : List Element :=
  element.children.filter (fun c =>
    c.tag == "Entity" && EntitySerializer.has_dependency c)

/-- pyUpper maps exactly the letters t and T to the letter T. -/
lemma pyUpper_eq_T (c : Char) : pyUpper c = 'T' ↔ (c = 't' ∨ c = 'T') := by
  constructor
  · intro he
    by_cases h : 97 ≤ c.toNat ∧ c.toNat ≤ 122
    · obtain ⟨h1, h2⟩ := h
      have hc : c = Char.ofNat c.toNat := (Char.ofNat_toNat c).symm
      obtain ⟨n, hn⟩ : ∃ n, c.toNat = n := ⟨_, rfl⟩
      rw [hn] at h1 h2 hc
      subst hc
      interval_cases n <;> revert he <;> decide
    · rw [pyUpper, if_neg h] at he
      right; exact he
  · rintro (rfl | rfl) <;> decide

/-- C6: for every attribute text read as a boolean, the parse takes only
the first character of the text and tests it case insensitively against
the true marker: the result is true exactly when the leading character
is t or T, and any other leading character, including that of a
previously written False, yields false. -/
theorem c6_str_to_bool_tests_first_char (s : String) :
    _str_to_bool s = true ↔
      (s.data.head? = some 't' ∨ s.data.head? = some 'T') := by
  unfold _str_to_bool
  cases hd : s.data with
  | nil => simp
  | cons c rest =>
      simp only [List.head?_cons, Option.some.injEq, beq_iff_eq]
      exact pyUpper_eq_T c

/-- C7: the suffix normalization of save is dead code. On the failing
input, a path with no stc suffix, the path is left unchanged, while the
documented behaviour would append the extension: the missing call
parentheses on lower make the comparison of source line 85 an always
true inequality between a bound method and a string, and its negation an
always false guard. -/
theorem c7_save_never_appends_suffix :
    ConfigurationFileSerializer.savePath "myconfig" = "myconfig"
      ∧ QFileInfo.suffix "myconfig" = ""
      ∧ savePathExpected "myconfig" = "myconfig.stc" :=
  ⟨rfl, by decide, by decide⟩

/-- entity element whose only column is a lookup column, the
counterexample input for the dependency classification. -/
def c2LookupColumnEl : Element :=
  .mk "Column" [("TYPE_INFO", "LOOKUP"), ("name", "gender")] []

def c2EntityEl : Element :=
  .mk "Entity" [("shortName", "person")] [.mk "Columns" [] [c2LookupColumnEl]]

/-- C2 counterexample: an entity element whose single column carries the
LOOKUP tag is foreign key family in the sense of the claim, yet
has_dependency classifies it as not dependency bearing, because
DEPENDENCY_FLAGS holds only the plain FOREIGN_KEY tag. -/
theorem c2_counterexample :
    hasForeignKeyFamilyColumn c2EntityEl = true
      ∧ EntitySerializer.has_dependency c2EntityEl = false := by
  decide

/-- C2 as amended: the loader classifies an entity element as dependency
bearing if and only if at least one of its column elements carries a
TYPE_INFO attribute whose value is exactly FOREIGN_KEY; the lookup and
administrative spatial unit specializations do not count. -/
theorem c2_dependency_iff_plain_foreign_key (element : Element) :
    EntitySerializer.has_dependency element = true ↔
      ∃ ce ∈ EntitySerializer.column_elements element,
        ce.hasAttribute "TYPE_INFO" = true
          ∧ ce.attribute "TYPE_INFO" "" = "FOREIGN_KEY" := by
  unfold EntitySerializer.has_dependency
  rw [List.any_eq_true]
  constructor
  · rintro ⟨ce, hmem, hce⟩
    rw [Bool.and_eq_true] at hce
    refine ⟨ce, hmem, hce.1, ?_⟩
    have := hce.2
    simp only [EntitySerializer.DEPENDENCY_FLAGS, List.contains_cons,
      List.contains_nil, Bool.or_false, beq_iff_eq] at this
    exact this
  · rintro ⟨ce, hmem, h1, h2⟩
    refine ⟨ce, hmem, ?_⟩
    rw [Bool.and_eq_true]
    refine ⟨h1, ?_⟩
    simp only [EntitySerializer.DEPENDENCY_FLAGS, List.contains_cons,
      List.contains_nil, Bool.or_false, beq_iff_eq]
    exact h2

/-- the social tenure reader never writes the tenure type reference,
whatever the element holds. -/
lemma socialTenure_read_keeps_tenure_type (child_element : Element) (profile : Profile) :
    (SocialTenureSerializer.read_xml child_element profile).social_tenure.tenure_type
      = profile.social_tenure.tenure_type := by
  unfold SocialTenureSerializer.read_xml
  by_cases hp : child_element.attribute "party" "" ≠ "" <;>
    by_cases hs : child_element.attribute "spatialUnit" "" ≠ "" <;>
      simp [hp, hs]

/-- a concrete profile built purely from the variants of the data model:
two plain entities, one value list with one code value pair, and a
social tenure configuration referencing all three. -/
def partyEntity : Entity := { short_name := "party", name := "party" }

def parcelEntity : Entity := { short_name := "parcel", name := "parcel" }

def statusList : ValueList := { short_name := "status", values := [("Active", "1")] }

def demoProfile : Profile :=
  { name := "default"
    entities := [("party", .entity partyEntity), ("parcel", .entity parcelEntity),
                 ("status", .valueList statusList)]
    relations := []
    social_tenure := { party := "party", spatial_unit := "parcel", tenure_type := "status" } }

/-- C1: the round trip is broken on the social tenure references. The
profile below carries the tenure type reference status; writing it and
reading the result back yields a profile whose party and spatial unit
references survive but whose tenure type reference is empty, because
SocialTenureSerializer.read_xml never reads the tenureTypeList attribute
its writer emits. -/
theorem c1_roundtrip_drops_tenure_type :
    demoProfile.social_tenure.tenure_type = "status"
      ∧ ((ProfileSerializer.read_xml (ProfileSerializer.profile_element demoProfile)).map
          (fun st => st.1.social_tenure))
        = some { party := "party", spatial_unit := "parcel", tenure_type := "" } := by
  exact ⟨rfl, by decide⟩

/-- C5 as amended: for foreign key and lookup column elements an entity
relation is attached if and only if the referenced name is found in the
relation index and the rebuilt relation validates against the owning
profile; a missing or invalid relation silently leaves the arguments
without a relation. The administrative spatial unit specialization
replaces this hook and never attaches a relation. -/
theorem c5_relation_attached_iff (cls : ColumnSer)
    (hcls : cls = ColumnSer.foreignKey ∨ cls = ColumnSer.lookup)
    (cargs : ConstructArgs) (hc : cargs.entity_relation = none)
    (element : Element) (profile : Profile)
    (associations entity_relation_elements : List (String × Element)) :
    (cls._obj_args cargs element profile associations
        entity_relation_elements).entity_relation ≠ none
      ↔ ∃ relation_el, element.firstChildElement "Relation" = some relation_el
          ∧ ∃ er_element,
              dictGet entity_relation_elements (relation_el.attribute "name" "")
                = some er_element
              ∧ ((EntityRelationSerializer.read_xml er_element).valid profile).1
                = true := by
  have key : cls._obj_args cargs element profile associations entity_relation_elements
      = ForeignKeyColumnSerializer._obj_args cargs element profile
          entity_relation_elements := by
    rcases hcls with rfl | rfl <;> rfl
  rw [key]
  unfold ForeignKeyColumnSerializer._obj_args
  rcases hrel : element.firstChildElement "Relation" with _ | relation_el
  · simp [hc]
  · simp only []
    rcases hget : dictGet entity_relation_elements (relation_el.attribute "name" "")
      with _ | er_element
    · simp [hc, hget]
    · simp only [hget]
      rcases hb : ((EntityRelationSerializer.read_xml er_element).valid profile).1
        with _ | _
      · constructor
        · intro hcon
          simp only [Bool.false_eq_true, if_false, hc, ne_eq, not_true_eq_false]
            at hcon
        · rintro ⟨rel2, hrel2, x, hx, hvx⟩
          rw [Option.some.injEq] at hrel2
          subst hrel2
          rw [hget, Option.some.injEq] at hx
          subst hx
          rw [hb] at hvx
          exact Bool.noConfusion hvx
      · constructor
        · intro _
          exact ⟨relation_el, rfl, er_element, hget, hb⟩
        · intro _
          simp

/-- profile, relation index and administrative spatial unit column used
as counterexample input for the relation attachment claim. -/
def c5Profile : Profile :=
  { name := "default"
    entities := [("party", .entity partyEntity), ("parcel", .entity parcelEntity)] }

def c5RelationEl : Element :=
  .mk "EntityRelation"
    [("name", "parcel_owner"), ("parent", "party"), ("parentColumn", "id"),
     ("child", "parcel"), ("childColumn", "owner_id")] []

def c5Index : List (String × Element) := [("parcel_owner", c5RelationEl)]

def c5AdminColumnEl : Element :=
  .mk "Column" [("TYPE_INFO", "ADMIN_SPATIAL_UNIT"), ("name", "asu")]
    [.mk "Relation" [("name", "parcel_owner")] []]

/-- C5 counterexample: an administrative spatial unit column element, a
foreign key family kind, references a relation that is present in the
index and validates against the owning profile, yet its override of the
argument hook attaches no relation, against the claim. -/
theorem c5_counterexample :
    (∃ relation_el, c5AdminColumnEl.firstChildElement "Relation" = some relation_el
        ∧ ∃ er_element,
            dictGet c5Index (relation_el.attribute "name" "") = some er_element
            ∧ ((EntityRelationSerializer.read_xml er_element).valid c5Profile).1 = true)
      ∧ (ColumnSer._obj_args ColumnSer.adminSpatialUnit { name := some "asu" }
          c5AdminColumnEl c5Profile [] c5Index).entity_relation = none := by
  refine ⟨⟨Element.mk "Relation" [("name", "parcel_owner")] [], rfl,
    c5RelationEl, rfl, by decide⟩, rfl⟩

/-- lookup column element referencing the same valid relation, input of
the witness below. -/
def c5LookupColumnEl : Element :=
  .mk "Column" [("TYPE_INFO", "LOOKUP"), ("name", "owner")]
    [.mk "Relation" [("name", "parcel_owner")] []]

/-- C5 witness: the amended equivalence applied to a lookup column. -/
theorem c5_witness :
    (ColumnSer.lookup = ColumnSer.foreignKey ∨ ColumnSer.lookup = ColumnSer.lookup)
      ∧ ({ name := some "owner" } : ConstructArgs).entity_relation = none
      ∧ ((ColumnSer._obj_args ColumnSer.lookup { name := some "owner" }
            c5LookupColumnEl c5Profile [] c5Index).entity_relation ≠ none
          ↔ ∃ relation_el,
              c5LookupColumnEl.firstChildElement "Relation" = some relation_el
              ∧ ∃ er_element,
                  dictGet c5Index (relation_el.attribute "name" "") = some er_element
                  ∧ ((EntityRelationSerializer.read_xml er_element).valid c5Profile).1
                    = true) :=
  ⟨Or.inr rfl, rfl,
    c5_relation_attached_iff ColumnSer.lookup (Or.inr rfl) { name := some "owner" } rfl
      c5LookupColumnEl c5Profile [] c5Index⟩

/-- C8: a column element of the integer kind whose minimum or maximum
text fails int() still loads: exactly one column is added to the entity,
and every failing bound is silently omitted, leaving the kind default in
force. -/
theorem c8_bad_bound_silently_omitted (element : Element) (entity : Entity)
    (profile : Profile) (associations entity_relation_elements : List (String × Element))
    (ht : ColumnSerializerCollection.type_info element = "BIGINT")
    (hn : element.attribute "name" "" ≠ "") :
    ∃ col : Column,
      ColumnSerializerCollection.read ColumnSer.bigint element entity profile
          associations entity_relation_elements = entity.add_column col
        ∧ (pyInt (element.attribute "minimum" "") = none → col.minimum = none)
        ∧ (pyInt (element.attribute "maximum" "") = none → col.maximum = none) := by
  unfold ColumnSerializerCollection.read
  rw [ht]
  rw [if_neg (by decide : ¬ ("BIGINT" : String) = "")]
  rw [if_neg hn]
  simp only [ColumnSer.convert_bounds]
  by_cases hmin : element.hasAttribute "minimum" = true <;>
    by_cases hmax : element.hasAttribute "maximum" = true <;>
      simp only [hmin, hmax, Bool.false_eq_true, if_true, if_false]
  · rcases hpm : pyInt (element.attribute "minimum" "") with _ | vmin <;>
      rcases hpx : pyInt (element.attribute "maximum" "") with _ | vmax
    · exact ⟨_, rfl, fun _ => rfl, fun _ => rfl⟩
    · exact ⟨_, rfl, fun _ => rfl,
        fun hx => Option.noConfusion hx⟩
    · exact ⟨_, rfl, fun hx => Option.noConfusion hx, fun _ => rfl⟩
    · exact ⟨_, rfl, fun hx => Option.noConfusion hx,
        fun hx => Option.noConfusion hx⟩
  · rcases hpm : pyInt (element.attribute "minimum" "") with _ | vmin
    · exact ⟨_, rfl, fun _ => rfl, fun _ => rfl⟩
    · exact ⟨_, rfl, fun hx => Option.noConfusion hx, fun _ => rfl⟩
  · rcases hpx : pyInt (element.attribute "maximum" "") with _ | vmax
    · exact ⟨_, rfl, fun _ => rfl, fun _ => rfl⟩
    · exact ⟨_, rfl, fun _ => rfl,
        fun hx => Option.noConfusion hx⟩
  · exact ⟨_, rfl, fun _ => rfl, fun _ => rfl⟩

/-- integer column element with a malformed minimum, witness input. -/
def c8ColumnEl : Element :=
  .mk "Column"
    [("TYPE_INFO", "BIGINT"), ("name", "age"), ("minimum", "abc"), ("maximum", "120")] []

/-- C8 witness: the theorem applied to the element above, whose minimum
text abc fails int(). -/
theorem c8_witness :
    ColumnSerializerCollection.type_info c8ColumnEl = "BIGINT"
      ∧ c8ColumnEl.attribute "name" "" ≠ ""
      ∧ c8ColumnEl.hasAttribute "minimum" = true
      ∧ pyInt (c8ColumnEl.attribute "minimum" "") = none
      ∧ ∃ col : Column,
          ColumnSerializerCollection.read ColumnSer.bigint c8ColumnEl
              { short_name := "parcel" } { name := "default" } [] []
            = Entity.add_column { short_name := "parcel" } col
          ∧ (pyInt (c8ColumnEl.attribute "minimum" "") = none → col.minimum = none)
          ∧ (pyInt (c8ColumnEl.attribute "maximum" "") = none → col.maximum = none) :=
  ⟨rfl, by decide, rfl, by decide,
    c8_bad_bound_silently_omitted c8ColumnEl { short_name := "parcel" }
      { name := "default" } [] [] rfl (by decide)⟩

/-- a column element with no registered handler leaves the entity
untouched. -/
lemma columnRead_no_handler (element : Element) (entity : Entity) (profile : Profile)
    (associations entity_relation_elements : List (String × Element))
    (h : ColumnSerializerCollection.handler_by_element element = none) :
    ColumnSerializerCollection.read_xml element entity profile associations
      entity_relation_elements = entity := by
  unfold ColumnSerializerCollection.read_xml
  rw [h]

/-- C9: a column element whose TYPE_INFO tag has no registered handler is
silently dropped: reading the column list with the element present gives
the same entity as reading it with the element removed, so the owning
entity keeps all its remaining recognized columns. -/
theorem c9_unregistered_type_dropped (element : Element)
    (h : ColumnSerializerCollection.handler_by_element element = none)
    (pre post : List Element) (entity : Entity) (profile : Profile)
    (associations entity_relation_elements : List (String × Element)) :
    EntitySerializer.readColumns (pre ++ element :: post) entity profile
        associations entity_relation_elements
      = EntitySerializer.readColumns (pre ++ post) entity profile
        associations entity_relation_elements := by
  unfold EntitySerializer.readColumns
  induction pre generalizing entity with
  | nil =>
      simp only [List.nil_append, List.foldl_cons]
      by_cases ht : element.tag = "Column"
      · rw [if_pos ht, columnRead_no_handler _ _ _ _ _ h]
      · rw [if_neg ht]
  | cons x xs ih =>
      simp only [List.cons_append, List.foldl_cons]
      exact ih _

/-- unknown type tag column and a well formed text column, witness
inputs. -/
def c9UnknownEl : Element :=
  .mk "Column" [("TYPE_INFO", "FANCY_TYPE"), ("name", "extra")] []

def c9TextEl : Element := .mk "Column" [("TYPE_INFO", "TEXT"), ("name", "label")] []

/-- C9 witness: dropping the unknown element from a two column list. -/
theorem c9_witness :
    ColumnSerializerCollection.handler_by_element c9UnknownEl = none
      ∧ EntitySerializer.readColumns [c9TextEl, c9UnknownEl] { short_name := "e" }
          { name := "p" } [] []
        = EntitySerializer.readColumns [c9TextEl] { short_name := "e" }
          { name := "p" } [] [] :=
  ⟨rfl, c9_unregistered_type_dropped c9UnknownEl rfl [c9TextEl] []
    { short_name := "e" } { name := "p" } [] []⟩

/-- a column element with an empty type tag or an empty name leaves the
entity untouched. -/
lemma columnRead_skip (element : Element) (entity : Entity) (profile : Profile)
    (associations entity_relation_elements : List (String × Element))
    (h : ColumnSerializerCollection.type_info element = ""
          ∨ element.attribute "name" "" = "") :
    ColumnSerializerCollection.read_xml element entity profile associations
      entity_relation_elements = entity := by
  rcases h with h | h
  · apply columnRead_no_handler
    unfold ColumnSerializerCollection.handler_by_element
    simp [h]
  · unfold ColumnSerializerCollection.read_xml
    cases hh : ColumnSerializerCollection.handler_by_element element with
    | none => rfl
    | some cls =>
        by_cases ht : ColumnSerializerCollection.type_info element = ""
        · simp [ColumnSerializerCollection.read, ht]
        · simp [ColumnSerializerCollection.read, ht, h]

/-- C10: a column element whose name attribute is absent or empty, or
whose TYPE_INFO attribute is empty, is skipped without constructing or
adding any column, and the remaining column elements of the owning
entity are processed unaffected. -/
theorem c10_unnamed_or_untyped_column_skipped (element : Element)
    (h : ColumnSerializerCollection.type_info element = ""
          ∨ element.attribute "name" "" = "")
    (rest : List Element) (entity : Entity) (profile : Profile)
    (associations entity_relation_elements : List (String × Element)) :
    ColumnSerializerCollection.read_xml element entity profile associations
        entity_relation_elements = entity
      ∧ EntitySerializer.readColumns (element :: rest) entity profile associations
          entity_relation_elements
        = EntitySerializer.readColumns rest entity profile associations
          entity_relation_elements := by
  refine ⟨columnRead_skip _ _ _ _ _ h, ?_⟩
  unfold EntitySerializer.readColumns
  simp only [List.foldl_cons]
  by_cases ht : element.tag = "Column"
  · rw [if_pos ht, columnRead_skip _ _ _ _ _ h]
  · rw [if_neg ht]

/-- named but empty name column element, witness input. -/
def c10NoNameEl : Element := .mk "Column" [("TYPE_INFO", "TEXT"), ("name", "")] []

/-- C10 witness: the skip applied in front of a recognized column. -/
theorem c10_witness :
    (ColumnSerializerCollection.type_info c10NoNameEl = ""
        ∨ c10NoNameEl.attribute "name" "" = "")
      ∧ ColumnSerializerCollection.read_xml c10NoNameEl { short_name := "e" }
          { name := "p" } [] [] = { short_name := "e" }
      ∧ EntitySerializer.readColumns [c10NoNameEl, c9TextEl] { short_name := "e" }
          { name := "p" } [] []
        = EntitySerializer.readColumns [c9TextEl] { short_name := "e" }
          { name := "p" } [] [] :=
  ⟨Or.inr rfl,
    (c10_unnamed_or_untyped_column_skipped c10NoNameEl (Or.inr rfl) [c9TextEl]
      { short_name := "e" } { name := "p" } [] []).1,
    (c10_unnamed_or_untyped_column_skipped c10NoNameEl (Or.inr rfl) [c9TextEl]
      { short_name := "e" } { name := "p" } [] []).2⟩

/-- C4: loading a document whose root version attribute parses to a
number below the running version invokes the upgrade step, which reports
failure, so the load raises the configuration error and leaves the in
memory configuration in its post reset, empty state: the reset happens
before any profile is populated. -/
theorem c4_version_below_resets_and_fails (doc_element : Element) (config : StdmConfig)
    (v : Int × Nat)
    (hattr : doc_element.hasAttribute "version" = true)
    (hparse : pyFloat (doc_element.attribute "version" "") = some v)
    (hbelow : decimalToRat v < StdmConfiguration.VERSION) :
    ConfigurationFileSerializer.read_xml (some doc_element) config
      = ({ profiles := [] }, some ConfigError.updateFailed) := by
  have hne : doc_element.attribute "version" "" ≠ "" := by
    intro h0
    rw [h0] at hparse
    exact Option.noConfusion ((rfl : pyFloat "" = none).symm.trans hparse)
  unfold ConfigurationFileSerializer.read_xml
  simp only [hattr, hparse, eq_self_iff_true, not_true, if_false, if_neg hne,
    if_pos hbelow]
  rfl

/-- root element with version 1.1 and a non empty configuration, witness
inputs for the version gate. -/
def c4Doc : Element := .mk "Configuration" [("version", "1.1")] []

def c4Config : StdmConfig := { profiles := [("p", { name := "p" })] }

/-- C4 witness: the version gate applied to a document tagged 1.1, below
the running version, starting from a non empty configuration. -/
theorem c4_witness :
    c4Doc.hasAttribute "version" = true
      ∧ pyFloat (c4Doc.attribute "version" "") = some (11, 1)
      ∧ decimalToRat (11, 1) < StdmConfiguration.VERSION
      ∧ ConfigurationFileSerializer.read_xml (some c4Doc) c4Config
        = ({ profiles := [] }, some ConfigError.updateFailed) :=
  ⟨rfl, by decide, by norm_num [decimalToRat, StdmConfiguration.VERSION],
    c4_version_below_resets_and_fails c4Doc c4Config (11, 1) rfl (by decide)
      (by norm_num [decimalToRat, StdmConfiguration.VERSION])⟩

/-- reading one entity element appends exactly its events to the trace. -/
lemma entityRead_trace (ce : Element) (st : PState)
    (associations entity_relation_elements : List (String × Element)) :
    (EntitySerializer.read_xml ce st associations entity_relation_elements).2
      = st.2 ++ entityEvents ce := by
  unfold EntitySerializer.read_xml entityEvents
  by_cases h : ce.attribute "shortName" "" = "" <;> simp [h]

/-- reading one value list element appends exactly its events. -/
lemma valueListReadOne_trace (st : PState) (v : Element) :
    (ValueListSerializer.readOne st v).2 = st.2 ++ valueListElementEvents v := by
  unfold ValueListSerializer.readOne valueListElementEvents
  by_cases h : v.attribute "name" "" = "" <;> simp [h]

/-- the fold over value list elements appends all their events. -/
lemma valueListFold_trace (l : List Element) (st : PState) :
    (l.foldl ValueListSerializer.readOne st).2
      = st.2 ++ eventsOf valueListElementEvents l := by
  induction l generalizing st with
  | nil => simp [eventsOf]
  | cons x xs ih =>
      rw [List.foldl_cons, ih, valueListReadOne_trace]
      simp [eventsOf, List.append_assoc]

/-- the value list reader appends the events of every ValueList
descendant of its group element. -/
lemma valueListRead_trace (g : Element) (st : PState) :
    (ValueListSerializer.read_xml g st).2
      = st.2 ++ eventsOf valueListElementEvents (g.elementsByTagName "ValueList") := by
  unfold ValueListSerializer.read_xml
  exact valueListFold_trace _ _

/-- the registry resolves the Entity tag to the entity serializer. -/
lemma handler_by_tag_name_entity :
    EntitySerializerCollection.handler_by_tag_name "Entity" = some EntitySer.entity := rfl

/-- the fold over entity elements appends all their events. -/
lemma entityFold_trace (associations entity_relation_elements : List (String × Element))
    (l : List Element) (st : PState) :
    ((l.foldl (fun st ce =>
        EntitySerializer.read_xml ce st associations entity_relation_elements) st).2)
      = st.2 ++ eventsOf entityEvents l := by
  induction l generalizing st with
  | nil => simp [eventsOf]
  | cons x xs ih =>
      rw [List.foldl_cons, ih, entityRead_trace]
      simp [eventsOf, List.append_assoc]

/-- the step of the first pass on a non Entity child is the identity. -/
lemma firstPassStep_other (associations entity_relation_elements : List (String × Element))
    (acc : PState × List (Element × EntitySer)) (c : Element)
    (h : ¬ c.tag = "Entity") :
    ProfileSerializer.firstPassStep associations entity_relation_elements acc c = acc := by
  unfold ProfileSerializer.firstPassStep
  rw [if_neg h]

/-- the step of the first pass on an Entity child either reads it at once
or queues it, depending on has_dependency. -/
lemma firstPassStep_entity (associations entity_relation_elements : List (String × Element))
    (st : PState) (ds : List (Element × EntitySer)) (c : Element)
    (ht : c.tag = "Entity") :
    ProfileSerializer.firstPassStep associations entity_relation_elements (st, ds) c
      = if EntitySerializer.has_dependency c
          then (st, ds ++ [(c, EntitySer.entity)])
          else (EntitySerializer.read_xml c st associations entity_relation_elements, ds) := by
  unfold ProfileSerializer.firstPassStep
  rw [ht, handler_by_tag_name_entity]
  by_cases hd : EntitySerializer.has_dependency c = true
  · simp [EntitySer.has_dependency, hd]
  · simp [EntitySer.has_dependency, EntitySer.read_xml, hd]

/-- the first pass fold splits the children into immediately read
entities and queued entities, preserving both relative orders. -/
lemma firstPass_fold (associations entity_relation_elements : List (String × Element))
    (cs : List Element) (st : PState) (ds : List (Element × EntitySer)) :
    cs.foldl (ProfileSerializer.firstPassStep associations entity_relation_elements) (st, ds)
      = ((cs.filter (fun c =>
            c.tag == "Entity" && !(EntitySerializer.has_dependency c))).foldl
            (fun st ce =>
              EntitySerializer.read_xml ce st associations entity_relation_elements) st,
          ds ++ (cs.filter (fun c =>
            c.tag == "Entity" && EntitySerializer.has_dependency c)).map
              (fun ce => (ce, EntitySer.entity))) := by
  induction cs generalizing st ds with
  | nil => simp
  | cons c cs ih =>
      rw [List.foldl_cons]
      by_cases ht : c.tag = "Entity"
      · rw [firstPassStep_entity _ _ _ _ _ ht]
        by_cases hd : EntitySerializer.has_dependency c = true
        · rw [if_pos hd, ih]
          simp [List.filter_cons, ht, hd]
        · rw [if_neg hd, ih]
          simp only [List.filter_cons, ht]
          simp [hd]
      · rw [firstPassStep_other _ _ _ _ ht, ih]
        simp [List.filter_cons, ht]

/-- the deferred fold, over elements queued with the entity serializer,
appends all their events. -/
lemma deferredFold_trace (associations entity_relation_elements : List (String × Element))
    (l : List Element) (st : PState) :
    ((l.map (fun ce => (ce, EntitySer.entity))).foldl
        (ProfileSerializer.readDeferredStep associations entity_relation_elements) st).2
      = st.2 ++ eventsOf entityEvents l := by
  induction l generalizing st with
  | nil => simp [eventsOf]
  | cons x xs ih =>
      simp only [List.map_cons, List.foldl_cons]
      rw [ih]
      have hstep : ProfileSerializer.readDeferredStep associations
          entity_relation_elements st (x, EntitySer.entity)
          = EntitySerializer.read_xml x st associations entity_relation_elements := rfl
      rw [hstep, entityRead_trace]
      simp [eventsOf, List.append_assoc]

/-- C3: for every profile element the loader accepts, the construction
trace is exactly the value list events, then the events of the non
dependency bearing Entity children in document order, then the events of
the dependency bearing Entity children in their original relative
order. -/
theorem c3_construction_order (element : Element)
    (h : element.attribute "name" "" ≠ "") :
    ∃ st : PState, ProfileSerializer.read_xml element = some st
      ∧ st.2 = valueListEvents element
          ++ eventsOf entityEvents (immediateChildren element)
          ++ eventsOf entityEvents (deferredChildren element) := by
  unfold ProfileSerializer.read_xml ProfileSerializer.firstPass
  rw [if_neg h]
  refine ⟨_, rfl, ?_⟩
  rw [firstPass_fold]
  simp only [List.nil_append]
  rcases hst : element.firstChildElement "SocialTenure" with _ | str_el <;>
    simp only [hst] <;>
    rcases hg : element.firstChildElement "ValueLists" with _ | g <;>
      simp only [hg] <;>
      rw [deferredFold_trace, entityFold_trace] <;>
      unfold valueListEvents immediateChildren deferredChildren <;>
      simp [hg, valueListRead_trace, List.append_assoc]

/-- profile element with a value list group, an immediately constructed
entity, a deferred foreign key bearing entity declared first, and a
social tenure block, witness input for the construction order. -/
def c3FkColumnEl : Element :=
  .mk "Column" [("TYPE_INFO", "FOREIGN_KEY"), ("name", "owner_id")] []

def c3ProfileEl : Element :=
  .mk "Profile" [("name", "default")]
    [ .mk "ValueLists" [] [.mk "ValueList" [("name", "status")] []],
      .mk "Entity" [("shortName", "parcel")] [.mk "Columns" [] [c3FkColumnEl]],
      .mk "Entity" [("shortName", "party")] [.mk "Columns" [] []],
      .mk "Relations" [] [],
      .mk "SocialTenure" [("party", "party"), ("spatialUnit", "parcel")] [] ]

/-- C3 witness: the construction order applied to the element above; the
parcel entity is declared first but read after party, since its foreign
key column defers it. -/
theorem c3_witness :
    c3ProfileEl.attribute "name" "" ≠ ""
      ∧ ∃ st : PState, ProfileSerializer.read_xml c3ProfileEl = some st
          ∧ st.2 = valueListEvents c3ProfileEl
              ++ eventsOf entityEvents (immediateChildren c3ProfileEl)
              ++ eventsOf entityEvents (deferredChildren c3ProfileEl) :=
  ⟨by decide, c3_construction_order c3ProfileEl (by decide)⟩
